import Mathlib

/-!
# Verification of the candle-vllm serving core against its specification

Shallow embedding of the relevant parts of the repository:

* `src/bin/serve/main.rs` — startup cache-block arithmetic and the
  construction of the scheduler configuration;
* `src/bin/serve/command.rs` / `src/lib.rs` — the CLI argument surface
  (`Args`, `ModelSelected`, `get_model_loader`);
* `src/openai/pipelines/mod.rs` — `TokenOrFinishReason`, `get_token`,
  and the streaming `TokenOutputStream`;
* `src/openai/models/stable_lm.rs` — the `StableLM::forward` slicing of
  the final hidden states;
* the block engine swap operations (modelled from the specification,
  the implementation file is not part of the sources at hand).

Rust `usize` arithmetic is modelled with `Nat` (all quantities involved
are sizes and the source performs no subtraction that could underflow on
the paths modelled, except where explicitly guarded).  Rust `String`s
are modelled as `List Char`.  `f32`/`f64` CLI payloads are carried as
opaque bit patterns: their numeric semantics is irrelevant to every
claim below.
-/

namespace CandleVllm

/-! ## Startup cache-block arithmetic (src/bin/serve/main.rs) -/

/-- `const SIZE_IN_MB: usize = 1024 * 1024;` (main.rs line 27). -/
def SIZE_IN_MB : Nat := 1024 * 1024

/-- The chained integer-division form computed in `main` (main.rs lines
87–93): `args.kvcache_mem_gpu * SIZE_IN_MB / dsize / args.block_size /
config.num_key_value_heads / config.get_head_size() /
config.num_hidden_layers / 2`. -/
def num_gpu_blocks (kvcache_mem_gpu dsize block_size num_key_value_heads
    head_size num_hidden_layers : Nat) : Nat :=
  kvcache_mem_gpu * SIZE_IN_MB / dsize / block_size / num_key_value_heads
    / head_size / num_hidden_layers / 2

/-- The chained integer-division form computed in `main` for the CPU pool
(main.rs lines 94–100), identical in shape to the GPU computation but
applied to `args.kvcache_mem_cpu`. -/
def num_cpu_blocks (kvcache_mem_cpu dsize block_size num_key_value_heads
    head_size num_hidden_layers : Nat) : Nat :=
  kvcache_mem_cpu * SIZE_IN_MB / dsize / block_size / num_key_value_heads
    / head_size / num_hidden_layers / 2

/-- The single floor division by the full product, as the specification
states it: memory (MB) × 2^20 divided by
`dtype_size × block_size × num_kv_heads × head_dim × num_layers × 2`. -/
def num_blocks_single_div (mem_mb dsize block_size num_key_value_heads
    head_size num_hidden_layers : Nat) : Nat :=
  mem_mb * 2 ^ 20 /
    (dsize * block_size * num_key_value_heads * head_size
      * num_hidden_layers * 2)

/-! ## CLI surface (src/bin/serve/command.rs, src/lib.rs) -/

/-- An `f32` CLI payload, carried as its bit pattern; no float semantics
is needed by any claim. -/
structure F32 where
  bits : Nat
deriving DecidableEq, Repr

/-- An `f64` CLI payload, carried as its bit pattern. -/
structure F64 where
  bits : Nat
deriving DecidableEq, Repr

/-- The `ModelSelected` subcommand enum (command.rs lines 70–153 and the
identical copy in lib.rs lines 14–97).  It has exactly four variants:
`Llama3`, `Qwen2`, `Gemma`, `Mistral`. -/
inductive ModelSelected where
  | Llama3 (repeat_last_n : Option Nat) (temperature : Option F32)
      (penalty : Option F32) (max_gen_tokens : Option Nat)
      (quant : Option String)
  | Qwen2 (repeat_last_n : Option Nat) (temperature : Option F32)
      (top_p : Option F64) (top_k : Option Nat) (penalty : Option F32)
      (max_gen_tokens : Option Nat) (quant : Option String)
  | Gemma (repeat_last_n : Option Nat) (temperature : Option F32)
      (penalty : Option F32) (max_gen_tokens : Option Nat)
      (quant : Option String)
  | Mistral (repeat_last_n : Option Nat) (temperature : Option F32)
      (penalty : Option F32) (max_gen_tokens : Option Nat)
      (quant : Option String)
deriving DecidableEq, Repr

/-- `SpecificConfig` (lib.rs lines 110–141): the per-model sampling
configuration assembled by `get_model_loader`. -/
structure SpecificConfig where
  repeat_last_n : Option Nat
  temperature : Option F32
  top_k : Option Nat
  top_p : Option F64
  penalty : Option F32
  max_gen_tokens : Option Nat
  quant : Option String
deriving DecidableEq, Repr

/-- `DefaultLoader::new(SpecificConfig, String)`: the loader value built
by `get_model_loader`; its `name` field is the model-family tag. -/
structure DefaultLoader where
  config : SpecificConfig
  name : String
deriving DecidableEq, Repr

/-- `get_model_loader` (command.rs lines 166–263): maps the selected
variant to a `DefaultLoader` for that family together with the model id
(the supplied one, or the family default). -/
def get_model_loader (selected_model : ModelSelected)
    (model_id : Option String) : DefaultLoader × String :=
  match selected_model with
  | .Llama3 repeat_last_n temperature penalty max_gen_tokens quant =>
    (⟨⟨repeat_last_n, temperature, none, none, penalty, max_gen_tokens,
        quant⟩, "llama3"⟩,
     model_id.getD "meta-llama/Meta-Llama-3.1-8B-Instruct")
  | .Qwen2 repeat_last_n temperature top_p top_k penalty max_gen_tokens
      quant =>
    (⟨⟨repeat_last_n, temperature, top_k, top_p, penalty, max_gen_tokens,
        quant⟩, "qwen2"⟩,
     model_id.getD "Qwen/Qwen2.5-0.5B-Instruct")
  | .Gemma repeat_last_n temperature penalty max_gen_tokens quant =>
    (⟨⟨repeat_last_n, temperature, none, none, penalty, max_gen_tokens,
        quant⟩, "gemma"⟩,
     model_id.getD "google/gemma-2b-it")
  | .Mistral repeat_last_n temperature penalty max_gen_tokens quant =>
    (⟨⟨repeat_last_n, temperature, none, none, penalty, max_gen_tokens,
        quant⟩, "mistral"⟩,
     model_id.getD "mistralai/Mistral-7B-Instruct-v0.3")

/-- The parsed `Args` record (command.rs lines 11–68). -/
structure Args where
  hf_token : Option String
  hf_token_path : Option String
  port : Nat
  verbose : Bool
  command : ModelSelected
  max_num_seqs : Nat
  block_size : Nat
  model_id : Option String
  weight_path : Option String
  dtype : Option String
  cpu : Bool
  kvcache_mem_gpu : Nat
  kvcache_mem_cpu : Nat
  record_conversation : Bool
deriving DecidableEq, Repr

/-- A CLI invocation before default filling: `none` for a flag means the
flag was omitted from the argument list.  `port` and the subcommand are
required by clap and therefore always present. -/
structure ArgsCli where
  hf_token : Option String
  hf_token_path : Option String
  port : Nat
  verbose : Bool
  command : ModelSelected
  max_num_seqs : Option Nat
  block_size : Option Nat
  model_id : Option String
  weight_path : Option String
  dtype : Option String
  cpu : Option Bool
  kvcache_mem_gpu : Option Nat
  kvcache_mem_cpu : Option Nat
  record_conversation : Bool
deriving DecidableEq, Repr

/-- Clap default filling for `Args` (command.rs attribute defaults:
`max_num_seqs` 256, `block_size` 32, `cpu` false, `kvcache_mem_gpu` 4096,
`kvcache_mem_cpu` 4096). -/
def parse_args (cli : ArgsCli) : Args :=
  { hf_token := cli.hf_token
    hf_token_path := cli.hf_token_path
    port := cli.port
    verbose := cli.verbose
    command := cli.command
    max_num_seqs := cli.max_num_seqs.getD 256
    block_size := cli.block_size.getD 32
    model_id := cli.model_id
    weight_path := cli.weight_path
    dtype := cli.dtype
    cpu := cli.cpu.getD false
    kvcache_mem_gpu := cli.kvcache_mem_gpu.getD 4096
    kvcache_mem_cpu := cli.kvcache_mem_cpu.getD 4096
    record_conversation := cli.record_conversation }

/-! ## Scheduler configuration construction (src/bin/serve/main.rs) -/

/-- `SchedulerConfig` as constructed in main.rs lines 112–114: the struct
literal `SchedulerConfig { max_num_seqs: args.max_num_seqs }` names every
field of the struct, so it carries exactly this one field. -/
structure SchedulerConfig where
  max_num_seqs : Nat
deriving DecidableEq, Repr

/-- The model configuration fields consumed by `main` (`config.
num_key_value_heads`, `config.get_head_size()`, `config.num_hidden_layers`,
the KV-cache dtype size) together with `max_seq_len` (the model length
limit the spec calls `max_model_len`). -/
structure ModelConfig where
  num_key_value_heads : Nat
  head_size : Nat
  num_hidden_layers : Nat
  max_seq_len : Nat
  kv_cache_dtype_size : Nat
deriving DecidableEq, Repr

/-- The scheduler configuration built by `main` (main.rs lines 110–118):
only `args.max_num_seqs` is stored; the model configuration is in scope
at the construction site but contributes nothing to it. -/
def mainSchedulerConfig (args : Args) (_config : ModelConfig) :
    SchedulerConfig :=
  { max_num_seqs := args.max_num_seqs }

/-! ## Sampler result type (src/openai/pipelines/mod.rs) -/

/-- Modelled from the spec: `Logprobs` is defined in
`src/openai/sampling_params.rs`, which is not among the sources at hand.
The spec says the sampler yields a "sampled next token (with logprobs)"
per sequence, so the value carries the sampled token id and its
log-probability (a float, kept as a bit pattern). -/
structure Logprobs where
  token : Nat
  logprob : F32
deriving DecidableEq, Repr

/-- `type TokenOrFinishReason = Either<Logprobs, String>;`
(pipelines/mod.rs line 16): per-sequence sampler outcome, a disjoint sum
of a sampled token (left) and a finish-reason string (right). -/
def TokenOrFinishReason : Type := Logprobs ⊕ String

/-- A `ModulePipeline` implementation, restricted to the `sample` method
(pipelines/mod.rs lines 27–31): `fn sample(&mut self, logits, groups) ->
Result<Vec<TokenOrFinishReason>, APIError>`.  Logits, sequence-group
queues and `APIError` payloads are abstract; the error message is kept
as a string. -/
structure PipelineSampler (Logits Groups : Type) where
  sample : Logits → Groups → Except String (List TokenOrFinishReason)

/-! ## StableLM forward pass (src/openai/models/stable_lm.rs) -/

/-- Rust `DType` restricted to the dtypes this development needs. -/
inductive RustDType where
  | F16
  | BF16
  | F32
deriving DecidableEq, Repr

/-- An attention-mask entry of `prepare_decoder_attention_mask`:
`f32::NEG_INFINITY` above the diagonal, `0.` elsewhere. -/
inductive MaskVal where
  | negInf
  | zero
deriving DecidableEq, Repr

/-- `StableLM::prepare_decoder_attention_mask` (stable_lm.rs lines
411–419), as the `tgt_len × tgt_len` matrix before broadcasting:
entry `(i, j)` is `NEG_INFINITY` iff `i < j`. -/
def prepare_decoder_attention_mask (tgt_len : Nat) : List (List MaskVal) :=
  (List.range tgt_len).map fun i =>
    (List.range tgt_len).map fun j =>
      if i < j then MaskVal.negInf else MaskVal.zero

/-- The pieces of a `StableLM` value that its `forward` method uses.
Hidden-state vectors (the trailing `hidden_size` tensor dimension) are an
abstract type `V`; a per-layer KV cache is an abstract type `C`.  A
decoder layer is a function of the optional cache, the optional
attention mask and the full `batch × seq` hidden-state tensor, exactly
the data `DecoderLayer::forward` receives. -/
structure StableLMModel (V C : Type) where
  embed_tokens : Nat → V
  layers : List (Option C → Option (List (List MaskVal)) →
    List (List V) → List (List V))
  norm : V → V
  lm_head : V → V

/-- The hidden states after the decoder stack in `StableLM::forward`
(stable_lm.rs lines 428–456): embed the token ids, build the causal mask
iff `seq_len > 1`, then fold the layers — zipped with the per-layer KV
caches when caches are supplied (`zip(kv_caches.iter(),
self.layers.iter_mut())`), otherwise over all layers with no cache. -/
def decoder_hidden_states {V C : Type} (m : StableLMModel V C)
    (input_ids : List (List Nat)) (kv_caches : Option (List C)) :
    List (List V) :=
  let seq_len := (input_ids.headD []).length
  let attention_mask : Option (List (List MaskVal)) :=
    if seq_len ≤ 1 then none else some (prepare_decoder_attention_mask seq_len)
  let xs : List (List V) := input_ids.map fun r => r.map m.embed_tokens
  match kv_caches with
  | some caches =>
    (caches.zip m.layers).foldl
      (fun a kl => kl.2 (some kl.1) attention_mask a) xs
  | none =>
    m.layers.foldl (fun a layer => layer none attention_mask a) xs

/-- The tensor slice `xs.i((.., j, ..))`: index `j` of every batch row,
failing if any row is too short. -/
def column {V : Type} (xs : List (List V)) (j : Nat) : Option (List V) :=
  match xs with
  | [] => some []
  | row :: rest =>
    match row.get? j, column rest j with
    | some v, some vs => some (v :: vs)
    | _, _ => none

/-- `StableLM::forward` (stable_lm.rs lines 421–461).  The input is the
`(b_size, seq_len)` token-id tensor as a rectangular list of rows (a
non-rectangular list is not a rank-2 tensor: error), `seq_len = 0` makes
`seq_len - 1` underflow (error), and after the decoder stack the slice
`xs.i((.., seq_len - 1, ..))` takes index `seq_len - 1` of every batch
row (error if out of range), then `norm`, `lm_head` and
`to_dtype(DType::F32)` are applied.  The result carries its dtype. -/
def StableLM.forward {V C : Type} (m : StableLMModel V C)
    (input_ids : List (List Nat)) (kv_caches : Option (List C)) :
    Except Unit (List V × RustDType) :=
  let seq_len := (input_ids.headD []).length
  if ¬ (input_ids.all fun r => r.length = seq_len) then .error ()
  else if seq_len = 0 then .error ()
  else
    match column (decoder_hidden_states m input_ids kv_caches)
        (seq_len - 1) with
    | none => .error ()
    | some lastPos =>
      .ok (lastPos.map (fun v => m.lm_head (m.norm v)), RustDType.F32)

/-- A degenerate concrete instantiation of the StableLM pieces (identity
embedding and heads, no layers), used to exercise the forward pass on a
concrete input. -/
def exampleStableLM : StableLMModel Nat Unit :=
  { embed_tokens := id, layers := [], norm := id, lm_head := id }

/-! ## Block engine swap operations (modelled from the spec) -/

/-- The device a physical cache block lives on. -/
inductive BDevice where
  | gpu
  | cpu
deriving DecidableEq, Repr

/-- Modelled from the spec: a block pool (spec §4.1) — the file
`src/engine/block_engine.rs` is not among the sources at hand.  Per
device the pool keeps a free list of block handles and the reference
counts of allocated handles (an association list; absent means not
allocated). -/
structure BlockPool where
  free : List Nat
  refs : List (Nat × Nat)
deriving DecidableEq, Repr

/-- Modelled from the spec: `allocate() → handle` "fails with
`OutOfMemory` if free list empty; otherwise pops a handle, sets its
`ref_count = 1`". -/
def BlockPool.allocate (p : BlockPool) : Option (Nat × BlockPool) :=
  match p.free with
  | [] => none
  | h :: t =>
    some (h, { free := t,
               refs := (h, 1) :: p.refs.filter fun kv => kv.1 ≠ h })

/-- The reference count of a handle (0 when not allocated). -/
def BlockPool.refOf (p : BlockPool) (h : Nat) : Nat :=
  (p.refs.lookup h).getD 0

/-- Modelled from the spec: `release(handle)` "decrements `ref_count`;
if it reaches zero, pushes to free list". -/
def BlockPool.release (p : BlockPool) (h : Nat) : BlockPool :=
  let r := p.refOf h
  { free := if r = 1 then h :: p.free else p.free,
    refs := (h, r - 1) :: p.refs.filter fun kv => kv.1 ≠ h }

/-- Allocate `n` blocks in sequence from a pool, failing if the pool
runs out. -/
def BlockPool.allocate_n (p : BlockPool) : Nat → Option (List Nat × BlockPool)
  | 0 => some ([], p)
  | n + 1 =>
    match p.allocate with
    | none => none
    | some (h, p₁) =>
      match p₁.allocate_n n with
      | none => none
      | some (hs, p₂) => some (h :: hs, p₂)

/-- Modelled from the spec: the per-request sequence state (spec §3) —
`src/engine/sequence.rs` is not among the sources at hand.  Only the
fields the swap round-trip claim touches are kept: the immutable prompt,
the growing output, and the block table as an ordered list of
(device, handle) pairs. -/
structure SwapSequence where
  prompt_token_ids : List Nat
  output_token_ids : List Nat
  block_table : List (BDevice × Nat)
deriving DecidableEq, Repr

/-- The two pools of the block engine. -/
structure BlockEngine where
  gpu_pool : BlockPool
  cpu_pool : BlockPool
deriving DecidableEq, Repr

/-- Modelled from the spec: `swap_out(sequence) → [(gpu_block,
cpu_block)]` — "allocate a mirror cpu block for each gpu block, release
the gpu references, replace table with cpu blocks" (spec §4.2).  Fails
if the table is not entirely on the gpu or the cpu pool lacks capacity. -/
def BlockEngine.swap_out (e : BlockEngine) (s : SwapSequence) :
    Option (BlockEngine × SwapSequence × List (Nat × Nat)) :=
  if s.block_table.all (fun b => b.1 = BDevice.gpu) then
    match e.cpu_pool.allocate_n s.block_table.length with
    | none => none
    | some (cpuBlocks, cpu₁) =>
      let gpu₁ := s.block_table.foldl (fun p b => p.release b.2) e.gpu_pool
      some (⟨gpu₁, cpu₁⟩,
            { s with block_table := cpuBlocks.map fun h => (BDevice.cpu, h) },
            (s.block_table.map Prod.snd).zip cpuBlocks)
  else none

/-- Modelled from the spec: `swap_in(sequence) → [(cpu_block,
gpu_block)]`, the "mirror operation in reverse" (spec §4.2). -/
def BlockEngine.swap_in (e : BlockEngine) (s : SwapSequence) :
    Option (BlockEngine × SwapSequence × List (Nat × Nat)) :=
  if s.block_table.all (fun b => b.1 = BDevice.cpu) then
    match e.gpu_pool.allocate_n s.block_table.length with
    | none => none
    | some (gpuBlocks, gpu₁) =>
      let cpu₁ := s.block_table.foldl (fun p b => p.release b.2) e.cpu_pool
      some (⟨gpu₁, cpu₁⟩,
            { s with block_table := gpuBlocks.map fun h => (BDevice.gpu, h) },
            (s.block_table.map Prod.snd).zip gpuBlocks)
  else none

/-! ## Token output stream (src/openai/pipelines/mod.rs lines 113–194) -/

/-- `TokenOutputStream` without its tokenizer handle: the token buffer
and the two window indices.  The tokenizer itself appears as the
`decode` parameter of the operations below: `decode : List Nat → Option
(List Char)` models the fallible `tokenizer.decode` (a `none` result is
a decode error, propagated by `?` in the source); decoded Rust strings
are modelled as lists of characters. -/
structure TokenOutputStream where
  tokens : List Nat
  prev_index : Nat
  current_index : Nat
deriving DecidableEq, Repr

/-- `TokenOutputStream::new` (tokens empty, both indices 0). -/
def TokenOutputStream.new : TokenOutputStream :=
  { tokens := [], prev_index := 0, current_index := 0 }

/-- The `prev_text` computation shared by `next_token` and
`decode_rest`: empty when the buffer is empty, otherwise the decode of
`tokens[prev_index..current_index]`. -/
def TokenOutputStream.prev_text (decode : List Nat → Option (List Char))
    (st : TokenOutputStream) : Option (List Char) :=
  if st.tokens.isEmpty then some []
  else decode ((st.tokens.drop st.prev_index).take
    (st.current_index - st.prev_index))

/-- `TokenOutputStream::next_token` (pipelines/mod.rs lines 142–159).
Returns the new state and `none` for a propagated decode error,
`some none` for `Ok(None)`, `some (some delta)` for `Ok(Some(delta))`.
The emission test is the source's
`text.len() > prev_text.len() && text.chars().last().unwrap()
.is_alphanumeric()` with `alnum` standing for `char::is_alphanumeric`,
and the delta is `text.split_at(prev_text.len()).1`, i.e. `text` with
its first `prev_text.length` characters removed. -/
def TokenOutputStream.next_token (decode : List Nat → Option (List Char))
    (alnum : Char → Bool) (st : TokenOutputStream) (token : Nat) :
    TokenOutputStream × Option (Option (List Char)) :=
  match st.prev_text decode with
  | none => (st, none)
  | some prev =>
    let st₁ : TokenOutputStream := { st with tokens := st.tokens ++ [token] }
    match decode (st₁.tokens.drop st₁.prev_index) with
    | none => (st₁, none)
    | some text =>
      if prev.length < text.length ∧ alnum (text.getLastD 'a') then
        ({ st₁ with prev_index := st.current_index,
                    current_index := st₁.tokens.length },
         some (some (text.drop prev.length)))
      else
        (st₁, some none)

/-- `TokenOutputStream::decode_rest` (pipelines/mod.rs lines 161–175):
borrows the stream immutably, so the state it returns is unchanged. -/
def TokenOutputStream.decode_rest (decode : List Nat → Option (List Char))
    (st : TokenOutputStream) :
    TokenOutputStream × Option (Option (List Char)) :=
  match st.prev_text decode with
  | none => (st, none)
  | some prev =>
    match decode (st.tokens.drop st.prev_index) with
    | none => (st, none)
    | some text =>
      if prev.length < text.length then
        (st, some (some (text.drop prev.length)))
      else
        (st, some none)

/-- `TokenOutputStream::clear` (pipelines/mod.rs lines 189–193). -/
def TokenOutputStream.clear (_st : TokenOutputStream) : TokenOutputStream :=
  { tokens := [], prev_index := 0, current_index := 0 }

/-- The invariant of the stream's window indices:
`prev_index ≤ current_index ≤ tokens.len()`. -/
def TokenOutputStream.Inv (st : TokenOutputStream) : Prop :=
  st.prev_index ≤ st.current_index ∧ st.current_index ≤ st.tokens.length

instance (st : TokenOutputStream) : Decidable st.Inv := by
  unfold TokenOutputStream.Inv; infer_instance

/-! ## Token resolution (src/openai/pipelines/mod.rs lines 65–86) -/

/-- `get_token(hf_token, hf_token_path)`.  The process environment and
the file system are explicit maps (`none` = lookup/read failure, turned
into an error by `try_api!`); `home` is `dirs::home_dir()`.  The match
follows the source: `(Some(envvar), None)` reads the environment
variable and trims it; `(None, Some(path))` reads the file and trims it;
`(None, None)` reads the cached token file under the home directory;
any other combination — i.e. both supplied — is rejected. -/
def get_token (env fs : String → Option String) (home : Option String)
    (hf_token hf_token_path : Option String) : Except String String :=
  match hf_token, hf_token_path with
  | some envvar, none =>
    match env envvar with
    | some v => .ok v.trim
    | none => .error "environment variable error"
  | none, some path =>
    match fs path with
    | some v => .ok v.trim
    | none => .error "read error"
  | none, none =>
    match home with
    | none => .error "No home directory"
    | some h =>
      match fs (h ++ "/.cache/huggingface/token") with
      | some v => .ok v.trim
      | none => .error "read error"
  | some _, some _ =>
    .error "Do not specify hf_token and hf_token_path at the same time."

/-! ## Theorems -/

/-- C1: for every positive configuration, the chained integer divisions
computed at startup for `num_gpu_blocks` (and likewise `num_cpu_blocks`
from `kvcache_mem_cpu`) equal the single floor division of memory
(MB × 2^20) by the product
`dtype_size × block_size × num_kv_heads × head_dim × num_layers × 2`. -/
theorem num_blocks_chained_eq_single_div
    (mem_gpu mem_cpu dsize block_size kv_heads head_size layers : Nat)
    (_hg : 0 < mem_gpu) (_hc : 0 < mem_cpu) (_hd : 0 < dsize)
    (_hb : 0 < block_size) (_hk : 0 < kv_heads) (_hh : 0 < head_size)
    (_hl : 0 < layers) :
    num_gpu_blocks mem_gpu dsize block_size kv_heads head_size layers =
      num_blocks_single_div mem_gpu dsize block_size kv_heads head_size
        layers ∧
    num_cpu_blocks mem_cpu dsize block_size kv_heads head_size layers =
      num_blocks_single_div mem_cpu dsize block_size kv_heads head_size
        layers := by
  constructor <;>
  · simp only [num_gpu_blocks, num_cpu_blocks, num_blocks_single_div,
      SIZE_IN_MB, Nat.div_div_eq_div_mul]
    norm_num

/-- Witness for C1 at the default CLI configuration (4096 MB, 2-byte
dtype, block size 32, 8 KV heads, head size 128, 32 layers). -/
theorem num_blocks_chained_eq_single_div_witness :
    num_gpu_blocks 4096 2 32 8 128 32 =
      num_blocks_single_div 4096 2 32 8 128 32 ∧
    num_cpu_blocks 4096 2 32 8 128 32 =
      num_blocks_single_div 4096 2 32 8 128 32 :=
  num_blocks_chained_eq_single_div 4096 4096 2 32 8 128 32
    (by decide) (by decide) (by decide) (by decide) (by decide)
    (by decide) (by decide)

/-- C3 counterexample: no variant of the CLI model-selection enum maps
to a loader for the StableLM family — `get_model_loader` only ever
produces the family tags "llama3", "qwen2", "gemma", "mistral". -/
theorem no_stable_lm_variant :
    ¬ ∃ (m : ModelSelected) (mid : Option String),
        ((get_model_loader m mid).1).name = "stable_lm" := by
  rintro ⟨m, mid, h⟩
  cases m <;> simp [get_model_loader] at h

/-- C3 (amended): each of the four families Llama, Qwen, Mistral and
Gemma has a selectable variant of `ModelSelected`, and
`get_model_loader` maps that variant — whatever its payload — to the
loader for that family. -/
theorem get_model_loader_family_map :
    (∀ r t p g q mid,
      ((get_model_loader (ModelSelected.Llama3 r t p g q) mid).1).name =
        "llama3") ∧
    (∀ r t tp tk p g q mid,
      ((get_model_loader (ModelSelected.Qwen2 r t tp tk p g q) mid).1).name =
        "qwen2") ∧
    (∀ r t p g q mid,
      ((get_model_loader (ModelSelected.Mistral r t p g q) mid).1).name =
        "mistral") ∧
    (∀ r t p g q mid,
      ((get_model_loader (ModelSelected.Gemma r t p g q) mid).1).name =
        "gemma") := by
  refine ⟨?_, ?_, ?_, ?_⟩ <;> intros <;> rfl

/-- C4 counterexample: two model configurations that differ in
`max_seq_len` (the spec's `max_model_len`) produce the same scheduler
configuration, so the configuration the scheduler is constructed with
cannot carry `max_model_len` — it stores `max_num_seqs` alone. -/
theorem scheduler_config_ignores_model_len :
    mainSchedulerConfig
        ⟨none, none, 2000, false,
          ModelSelected.Llama3 none none none none none,
          256, 32, none, none, none, false, 4096, 4096, false⟩
        ⟨8, 128, 32, 4096, 2⟩ =
      mainSchedulerConfig
        ⟨none, none, 2000, false,
          ModelSelected.Llama3 none none none none none,
          256, 32, none, none, none, false, 4096, 4096, false⟩
        ⟨8, 128, 32, 8192, 2⟩ ∧
    (⟨8, 128, 32, 4096, 2⟩ : ModelConfig).max_seq_len ≠
      (⟨8, 128, 32, 8192, 2⟩ : ModelConfig).max_seq_len := by
  exact ⟨rfl, by decide⟩

/-- C4 (amended): the scheduler is constructed with a configuration that
carries exactly `max_num_seqs`: the constructed value records
`args.max_num_seqs` and is independent of everything else, in particular
of the model configuration. -/
theorem scheduler_config_only_max_num_seqs
    (a₁ a₂ : Args) (c₁ c₂ : ModelConfig)
    (h : a₁.max_num_seqs = a₂.max_num_seqs) :
    mainSchedulerConfig a₁ c₁ = mainSchedulerConfig a₂ c₂ ∧
    (mainSchedulerConfig a₁ c₁).max_num_seqs = a₁.max_num_seqs := by
  simp [mainSchedulerConfig, h]

/-- Witness for C4 (amended) at two concrete argument records that agree
on `max_num_seqs` and differ elsewhere. -/
theorem scheduler_config_only_max_num_seqs_witness :
    mainSchedulerConfig
        ⟨none, none, 2000, false,
          ModelSelected.Llama3 none none none none none,
          256, 32, none, none, none, false, 4096, 4096, false⟩
        ⟨8, 128, 32, 4096, 2⟩ =
      mainSchedulerConfig
        ⟨none, none, 2001, true,
          ModelSelected.Mistral none none none none none,
          256, 16, none, none, none, true, 1024, 2048, true⟩
        ⟨4, 64, 16, 2048, 4⟩ ∧
    (mainSchedulerConfig
        ⟨none, none, 2000, false,
          ModelSelected.Llama3 none none none none none,
          256, 32, none, none, none, false, 4096, 4096, false⟩
        ⟨8, 128, 32, 4096, 2⟩).max_num_seqs = 256 :=
  scheduler_config_only_max_num_seqs _ _ _ _ rfl

/-- C5: a CLI invocation that omits the `--block-size`,
`--max-num-seqs`, `--kvcache-mem-gpu` and `--kvcache-mem-cpu` flags
parses to the defaults 32, 256, 4096 MB and 4096 MB respectively. -/
theorem parse_args_defaults (cli : ArgsCli)
    (hbs : cli.block_size = none) (hms : cli.max_num_seqs = none)
    (hmg : cli.kvcache_mem_gpu = none) (hmc : cli.kvcache_mem_cpu = none) :
    (parse_args cli).block_size = 32 ∧
    (parse_args cli).max_num_seqs = 256 ∧
    (parse_args cli).kvcache_mem_gpu = 4096 ∧
    (parse_args cli).kvcache_mem_cpu = 4096 := by
  simp [parse_args, hbs, hms, hmg, hmc]

/-- Witness for C5: a concrete invocation giving only the required
`--port` and subcommand. -/
theorem parse_args_defaults_witness :
    (parse_args
      ⟨none, none, 2000, false,
        ModelSelected.Llama3 none none none none none,
        none, none, none, none, none, none, none, none,
        false⟩).block_size = 32 ∧
    (parse_args
      ⟨none, none, 2000, false,
        ModelSelected.Llama3 none none none none none,
        none, none, none, none, none, none, none, none,
        false⟩).max_num_seqs = 256 ∧
    (parse_args
      ⟨none, none, 2000, false,
        ModelSelected.Llama3 none none none none none,
        none, none, none, none, none, none, none, none,
        false⟩).kvcache_mem_gpu = 4096 ∧
    (parse_args
      ⟨none, none, 2000, false,
        ModelSelected.Llama3 none none none none none,
        none, none, none, none, none, none, none, none,
        false⟩).kvcache_mem_cpu = 4096 :=
  parse_args_defaults _ rfl rfl rfl rfl

/-- C6: a successful `ModulePipeline::sample` call returns a vector each
of whose elements is either a sampled token with logprobs (`Left`) or a
finish-reason string (`Right`): the per-sequence result type is the
disjoint sum `Either<Logprobs, String>`. -/
theorem sample_elements_token_or_finish {L G : Type}
    (p : PipelineSampler L G) (logits : L) (groups : G)
    (v : List TokenOrFinishReason)
    (_h : p.sample logits groups = .ok v) :
    ∀ x ∈ v, (∃ lp : Logprobs, x = Sum.inl lp) ∨
      (∃ r : String, x = Sum.inr r) := by
  intro x _
  rcases x with lp | r
  · exact Or.inl ⟨lp, rfl⟩
  · exact Or.inr ⟨r, rfl⟩

/-- Witness for C6: a sampler returning one finish reason succeeds and
its single element is a `Right`. -/
theorem sample_elements_token_or_finish_witness :
    (∃ lp : Logprobs, (Sum.inr "stop" : TokenOrFinishReason) = Sum.inl lp) ∨
    (∃ r : String, (Sum.inr "stop" : TokenOrFinishReason) = Sum.inr r) :=
  sample_elements_token_or_finish
    (L := Unit) (G := Unit)
    ⟨fun _ _ => .ok [Sum.inr "stop"]⟩ () () [Sum.inr "stop"] rfl
    (Sum.inr "stop") (by simp)

/-- C10: `get_token` returns an error (it never panics) whenever both
`hf_token` and `hf_token_path` are supplied; when exactly one of them is
supplied, the token is read from that source (the environment variable
it names, resp. the file at that path) and whitespace-trimmed, a failed
read surfacing as an error. -/
theorem get_token_resolution (env fs : String → Option String)
    (home : Option String) (a b path v : String) :
    (∃ e, get_token env fs home (some a) (some b) = .error e) ∧
    (env a = some v → get_token env fs home (some a) none = .ok v.trim) ∧
    (env a = none → ∃ e, get_token env fs home (some a) none = .error e) ∧
    (fs path = some v →
      get_token env fs home none (some path) = .ok v.trim) ∧
    (fs path = none →
      ∃ e, get_token env fs home none (some path) = .error e) := by
  refine ⟨⟨_, rfl⟩, fun h => ?_, fun h => ?_, fun h => ?_, fun h => ?_⟩ <;>
    simp [get_token, h]

/-- Witness for C10: a concrete environment holding a padded token. -/
theorem get_token_resolution_witness :
    get_token (fun _ => some " tok\n") (fun _ => none) none
      (some "HF_TOKEN") none = .ok " tok\n".trim :=
  (get_token_resolution (fun _ => some " tok\n") (fun _ => none) none
    "HF_TOKEN" "unused" "unused" " tok\n").2.1 rfl

/-- C8: the window-index invariant
`prev_index ≤ current_index ≤ tokens.len()` holds for a fresh
`TokenOutputStream` and is preserved by `next_token`, `decode_rest` and
`clear`, for every tokenizer behaviour. -/
theorem token_stream_index_invariant :
    TokenOutputStream.new.Inv ∧
    (∀ (decode : List Nat → Option (List Char)) (alnum : Char → Bool)
        (st : TokenOutputStream) (token : Nat), st.Inv →
      ((st.next_token decode alnum token).1).Inv) ∧
    (∀ (decode : List Nat → Option (List Char)) (st : TokenOutputStream),
      st.Inv → ((st.decode_rest decode).1).Inv) ∧
    (∀ st : TokenOutputStream, (st.clear).Inv) := by
  refine ⟨⟨Nat.le_refl 0, Nat.le_refl 0⟩, ?_, ?_,
    fun st => ⟨Nat.le_refl 0, Nat.le_refl 0⟩⟩
  · intro decode alnum st token h
    obtain ⟨h₁, h₂⟩ := h
    simp only [TokenOutputStream.next_token]
    split
    · exact ⟨h₁, h₂⟩
    · split
      · exact ⟨h₁, by simpa using Nat.le_trans h₂ (Nat.le_succ _)⟩
      · split
        · refine ⟨by simpa using Nat.le_trans h₂ (Nat.le_succ _), ?_⟩
          simp
        · exact ⟨h₁, by simpa using Nat.le_trans h₂ (Nat.le_succ _)⟩
  · intro decode st h
    simp only [TokenOutputStream.decode_rest]
    split
    · exact h
    · split
      · exact h
      · split <;> exact h

/-- Witness for C8: the invariant survives one `next_token` call on a
fresh stream. -/
theorem token_stream_index_invariant_witness :
    ((TokenOutputStream.new.next_token (fun _ => some ['a'])
      (fun _ => true) 5).1).Inv :=
  token_stream_index_invariant.2.1 (fun _ => some ['a']) (fun _ => true)
    TokenOutputStream.new 5 ⟨Nat.le_refl 0, Nat.le_refl 0⟩

theorem allocate_n_some_length (n : Nat) :
    ∀ (p p' : BlockPool) (hs : List Nat),
      p.allocate_n n = some (hs, p') → hs.length = n := by
  induction n with
  | zero =>
    intro p p' hs h
    simp only [BlockPool.allocate_n, Option.some.injEq, Prod.mk.injEq] at h
    simp [← h.1]
  | succ n ih =>
    intro p p' hs h
    simp only [BlockPool.allocate_n] at h
    split at h
    · simp at h
    · rename_i hd p₁ _
      split at h
      · simp at h
      · rename_i tl p₂ hrec
        simp only [Option.some.injEq, Prod.mk.injEq] at h
        obtain ⟨h1, _⟩ := h
        subst h1
        simp [ih p₁ p₂ tl hrec]

/-- C7: swapping a fully-GPU-resident sequence out and back in restores
a block table made of GPU blocks covering the same logical positions —
the table has the same length and every entry is a GPU block (the
physical handles may differ) — and the sequence's prompt and output
token ids are unchanged by the round trip. -/
theorem swap_round_trip (e e₁ e₂ : BlockEngine) (s s₁ s₂ : SwapSequence)
    (m₁ m₂ : List (Nat × Nat))
    (hout : e.swap_out s = some (e₁, s₁, m₁))
    (hin : e₁.swap_in s₁ = some (e₂, s₂, m₂)) :
    s₂.block_table.length = s.block_table.length ∧
    s₂.block_table.all (fun b => b.1 = BDevice.gpu) = true ∧
    s₂.prompt_token_ids = s.prompt_token_ids ∧
    s₂.output_token_ids = s.output_token_ids := by
  unfold BlockEngine.swap_out at hout
  split at hout
  · split at hout
    · simp at hout
    · rename_i cpuBlocks cpu₁ hcalloc
      simp only [Option.some.injEq, Prod.mk.injEq] at hout
      obtain ⟨he₁, hs₁, hm₁⟩ := hout
      subst hs₁
      subst he₁
      unfold BlockEngine.swap_in at hin
      split at hin
      · split at hin
        · simp at hin
        · rename_i gpuBlocks gpu₂ hgalloc
          simp only [Option.some.injEq, Prod.mk.injEq] at hin
          obtain ⟨he₂, hs₂, hm₂⟩ := hin
          subst hs₂
          refine ⟨?_, by simp, rfl, rfl⟩
          have hg := allocate_n_some_length _ _ _ _ hgalloc
          have hc := allocate_n_some_length _ _ _ _ hcalloc
          simp only [List.length_map] at hg ⊢
          omega
      · rename_i hnc
        exact absurd (by simp) hnc
  · simp at hout

/-- Witness for C7: a one-block sequence swapped out to CPU block 5 and
back in to GPU block 0. -/
theorem swap_round_trip_witness :
    (⟨[1, 2], [3], [(BDevice.gpu, 0)]⟩ : SwapSequence).block_table.length =
      (⟨[1, 2], [3], [(BDevice.gpu, 0)]⟩ : SwapSequence).block_table.length ∧
    (⟨[1, 2], [3], [(BDevice.gpu, 0)]⟩ :
      SwapSequence).block_table.all (fun b => b.1 = BDevice.gpu) = true ∧
    (⟨[1, 2], [3], [(BDevice.gpu, 0)]⟩ : SwapSequence).prompt_token_ids =
      (⟨[1, 2], [3], [(BDevice.gpu, 0)]⟩ : SwapSequence).prompt_token_ids ∧
    (⟨[1, 2], [3], [(BDevice.gpu, 0)]⟩ : SwapSequence).output_token_ids =
      (⟨[1, 2], [3], [(BDevice.gpu, 0)]⟩ : SwapSequence).output_token_ids :=
  swap_round_trip
    ⟨⟨[], [(0, 1)]⟩, ⟨[5], []⟩⟩
    ⟨⟨[0], [(0, 0)]⟩, ⟨[], [(5, 1)]⟩⟩
    ⟨⟨[], [(0, 1)]⟩, ⟨[5], [(5, 0)]⟩⟩
    ⟨[1, 2], [3], [(BDevice.gpu, 0)]⟩
    ⟨[1, 2], [3], [(BDevice.cpu, 5)]⟩
    ⟨[1, 2], [3], [(BDevice.gpu, 0)]⟩
    [(0, 5)] [(5, 0)] (by decide) (by decide)

theorem column_some_length {V : Type} (xs : List (List V)) (j : Nat) :
    ∀ col, column xs j = some col → col.length = xs.length := by
  induction xs with
  | nil =>
    intro col h
    simp only [column, Option.some.injEq] at h
    simp [← h]
  | cons row rest ih =>
    intro col h
    simp only [column] at h
    split at h
    · rename_i v vs _ hvs
      simp only [Option.some.injEq] at h
      subst h
      simp [ih vs hvs]
    · simp at h

theorem foldl_batch_length {γ V : Type} (L : List γ)
    (step : List (List V) → γ → List (List V))
    (h : ∀ acc x, x ∈ L → (step acc x).length = acc.length) :
    ∀ init, (L.foldl step init).length = init.length := by
  induction L with
  | nil => intro init; rfl
  | cons a t ih =>
    intro init
    simp only [List.foldl_cons]
    rw [ih (fun acc x hx => h acc x (List.mem_cons_of_mem _ hx)) (step init a),
      h init a (List.mem_cons_self _ _)]

theorem decoder_hidden_states_length {V C : Type} (m : StableLMModel V C)
    (input_ids : List (List Nat)) (kv_caches : Option (List C))
    (hpres : ∀ l ∈ m.layers, ∀ c mask b, (l c mask b).length = b.length) :
    (decoder_hidden_states m input_ids kv_caches).length =
      input_ids.length := by
  simp only [decoder_hidden_states]
  cases kv_caches with
  | none =>
    rw [foldl_batch_length _ _ (fun acc x hx => hpres x hx none _ acc) _]
    simp
  | some caches =>
    rw [foldl_batch_length _ _
      (fun acc kl hkl => hpres kl.2 (List.of_mem_zip hkl).2 (some kl.1) _ acc) _]
    simp

/-- C2: for every forward pass of the StableLM model on a `(batch,
seq_len)` input with `seq_len ≥ 1` and shape-preserving decoder layers,
a successful result carries exactly one logits row per batch sequence,
each row computed by applying `norm` and `lm_head` to the hidden state
at the last position (index `seq_len - 1`) only, and the result dtype is
F32. -/
theorem stableLM_forward_last_row {V C : Type} (m : StableLMModel V C)
    (input_ids : List (List Nat)) (kv_caches : Option (List C))
    (rows : List V) (dt : RustDType)
    (hpres : ∀ l ∈ m.layers, ∀ c mask b, (l c mask b).length = b.length)
    (_hseq : 1 ≤ (input_ids.headD []).length)
    (h : StableLM.forward m input_ids kv_caches = .ok (rows, dt)) :
    dt = RustDType.F32 ∧
    rows.length = input_ids.length ∧
    ∃ col, column (decoder_hidden_states m input_ids kv_caches)
        ((input_ids.headD []).length - 1) = some col ∧
      rows = col.map fun v => m.lm_head (m.norm v) := by
  simp only [StableLM.forward] at h
  split at h
  · simp at h
  · split at h
    · simp at h
    · split at h
      · simp at h
      · rename_i lastPos hcol
        simp only [Except.ok.injEq, Prod.mk.injEq] at h
        obtain ⟨hr, hd⟩ := h
        subst hr
        subst hd
        refine ⟨rfl, ?_, lastPos, hcol, rfl⟩
        rw [List.length_map, column_some_length _ _ _ hcol,
          decoder_hidden_states_length m _ _ hpres]

/-- Witness for C2: the degenerate model on the single-token batch
`[[7]]`. -/
theorem stableLM_forward_last_row_witness :
    RustDType.F32 = RustDType.F32 ∧
    ([7] : List Nat).length = ([[7]] : List (List Nat)).length ∧
    ∃ col, column (decoder_hidden_states exampleStableLM [[7]] none)
        ((([[7]] : List (List Nat)).headD []).length - 1) = some col ∧
      ([7] : List Nat) = col.map fun v =>
        exampleStableLM.lm_head (exampleStableLM.norm v) :=
  stableLM_forward_last_row exampleStableLM [[7]] none [7] RustDType.F32
    (by simp [exampleStableLM]) (by decide) rfl

theorem getLastD_drop {α : Type} (l : List α) (k : Nat) (d : α)
    (h : k < l.length) : (l.drop k).getLastD d = l.getLastD d := by
  have hpos : 0 < (l.drop k).length := by
    rw [List.length_drop]; omega
  have hne : l.drop k ≠ [] := List.ne_nil_of_length_pos hpos
  rw [List.getLastD_eq_getLast? d, List.getLastD_eq_getLast? d]
  conv_rhs => rw [← List.take_append_drop k l]
  rw [List.getLast?_append_of_ne_nil _ hne]

/-- C9: if `next_token` returns `Ok(Some(delta))`, then `delta` is
non-empty, equals the newly decoded window text with the first
`prev_text.length` characters removed, the decoded text strictly grew,
and the final character of `delta` is alphanumeric; conversely, when
both decodes succeed but the text does not strictly grow or its final
character is not alphanumeric, the call returns `Ok(None)` and leaves
`prev_index` and `current_index` unchanged. -/
theorem next_token_delta_spec (decode : List Nat → Option (List Char))
    (alnum : Char → Bool) (st : TokenOutputStream) (token : Nat) :
    (∀ delta, (st.next_token decode alnum token).2 = some (some delta) →
      delta ≠ [] ∧ alnum (delta.getLastD 'a') = true ∧
      ∃ prev text, st.prev_text decode = some prev ∧
        decode ((st.tokens ++ [token]).drop st.prev_index) = some text ∧
        prev.length < text.length ∧
        delta = text.drop prev.length) ∧
    (∀ prev text, st.prev_text decode = some prev →
      decode ((st.tokens ++ [token]).drop st.prev_index) = some text →
      (text.length ≤ prev.length ∨ alnum (text.getLastD 'a') = false) →
      (st.next_token decode alnum token).2 = some none ∧
      ((st.next_token decode alnum token).1).prev_index = st.prev_index ∧
      ((st.next_token decode alnum token).1).current_index =
        st.current_index) := by
  constructor
  · intro delta h
    simp only [TokenOutputStream.next_token] at h
    split at h
    · simp at h
    · rename_i prev hprev
      split at h
      · simp at h
      · rename_i text htext
        split at h
        · rename_i hcond
          simp only [Option.some.injEq] at h
          subst h
          obtain ⟨hlt, halnum⟩ := hcond
          refine ⟨?_, ?_, prev, text, hprev, htext, hlt, rfl⟩
          · intro hnil
            have hlen := congrArg List.length hnil
            rw [List.length_drop] at hlen
            simp only [List.length_nil] at hlen
            omega
          · rw [getLastD_drop text prev.length 'a' hlt]
            exact halnum
        · simp at h
  · intro prev text hprev htext hfail
    simp only [TokenOutputStream.next_token, hprev, htext]
    have hcond : ¬ (prev.length < text.length ∧
        alnum (text.getLastD 'a') = true) := by
      rcases hfail with hle | hfa
      · intro hc; omega
      · intro hc; rw [hfa] at hc; exact Bool.false_ne_true hc.2
    rw [if_neg hcond]
    exact ⟨rfl, rfl, rfl⟩

/-- Witness for C9: a tokenizer decoding everything to "a" emits the
delta "a" for the first token. -/
theorem next_token_delta_spec_witness :
    (['a'] : List Char) ≠ [] ∧
    (fun _ => true : Char → Bool) ((['a'] : List Char).getLastD 'a') =
      true ∧
    ∃ prev text,
      TokenOutputStream.new.prev_text (fun _ => some ['a']) = some prev ∧
      (fun _ => some ['a'] : List Nat → Option (List Char))
        ((TokenOutputStream.new.tokens ++ [0]).drop
          TokenOutputStream.new.prev_index) = some text ∧
      prev.length < text.length ∧
      (['a'] : List Char) = text.drop prev.length :=
  (next_token_delta_spec (fun _ => some ['a']) (fun _ => true)
    TokenOutputStream.new 0).1 ['a'] rfl

end CandleVllm
